import Mathlib

/-!
Shallow embedding of the client-side state synchronization layer of the
genai-chatbot frontend: the Session/Message Store (`useChatStore`, from
`frontend/src/store/chatStore.js`) and the Document Selection Store
(`useFileStore`, from `frontend/src/store/fileStore.js`), together with the
guard logic of their UI callers (`ChatInput.handleSubmit` and
`SessionList.handleSwitchSession`).

Asynchronous backend calls are embedded by passing the call's outcome
(`Except Unit response`) as an explicit parameter: an operation is a function
from its arguments, the backend outcome, and the pre-state to a result record
holding the post-state plus observable effects (request issued, follow-up
sessions refresh triggered, error re-thrown).  Operations that the source
splits across an `await` boundary are defined as explicit phases
(`...Start` / optimistic apply / completion handlers) and the atomic
sequential run is their composition, so races can be expressed by applying a
completion phase to a state another operation changed in the meantime.
-/

/-- Frontend chat message: `{ role, content, sources? }`.  `sources` is absent
(`none`) on user messages and on assistant messages whose backend record had
no citations. -/
structure Message where
  role : String
  content : String
  sources : Option (List String)
  deriving DecidableEq

/-- Session summary as returned by the backend session list:
`{ session_id, message_count, created_at, last_message? }`. -/
structure SessionSummary where
  session_id : String
  message_count : Nat
  created_at : String
  last_message : Option String
  deriving DecidableEq

/-- State owned by `useChatStore`. -/
structure ChatState where
  sessionId : Option String
  messages : List Message
  isLoading : Bool
  sessions : List SessionSummary
  sessionsLoading : Bool
  deriving DecidableEq

/-- Initial state of `useChatStore`:
`sessionId: null, messages: [], isLoading: false, sessions: [],
sessionsLoading: false`. -/
def chatInit : ChatState :=
  { sessionId := none, messages := [], isLoading := false,
    sessions := [], sessionsLoading := false }

/-- Body of the chat request `chatAPI.sendMessage` sends:
`{ question, document_ids, session_id }` where `session_id` may be null. -/
structure ChatRequest where
  question : String
  document_ids : List String
  session_id : Option String
  deriving DecidableEq

/-- Successful chat response: `{ answer, sources, session_id }`. -/
structure ChatResponse where
  answer : String
  sources : List String
  session_id : String
  deriving DecidableEq

/-- Successful `chatAPI.createSession` response: `{ session_id }`. -/
structure CreateSessionResponse where
  session_id : String
  deriving DecidableEq

/-- One message of a `chatAPI.getSessionHistory` response:
`{ role, content, sources? }`. -/
structure BackendMsg where
  role : String
  content : String
  sources : Option (List String)
  deriving DecidableEq

/-- Result of `initializeSession`: post-state plus whether `fetchSessions`
was triggered afterwards. -/
structure InitResult where
  state : ChatState
  fetchTriggered : Bool
  deriving DecidableEq

/-- Result of `switchSession` (and of its caller `handleSwitchSession`):
post-state, whether a `getSessionHistory` network request was issued, and
whether a `fetchSessions` refresh was triggered. -/
structure SwitchResult where
  state : ChatState
  requested : Bool
  fetchTriggered : Bool
  deriving DecidableEq

/-- Result of `deleteSession`: post-state plus whether the error was
re-thrown to the caller. -/
structure DeleteResult where
  state : ChatState
  threw : Bool
  deriving DecidableEq

/-- Result of `sendMessage` (and of its caller `handleSubmit`): post-state,
the chat request issued to the backend (`none` when no request was made),
whether a `fetchSessions` refresh was triggered, and whether the error was
re-thrown to the caller. -/
structure SendResult where
  state : ChatState
  request : Option ChatRequest
  fetchTriggered : Bool
  threw : Bool
  deriving DecidableEq

/-- `initializeSession`: unconditionally calls `chatAPI.createSession()`;
on success `set({ sessionId: response.session_id })` then
`get().fetchSessions()`; on failure only logs, leaving state unchanged. -/
def initializeSession (outcome : Except Unit CreateSessionResponse)
    (s : ChatState) : InitResult :=
  match outcome with
  | .ok response => ⟨{ s with sessionId := some response.session_id }, true⟩
  | .error _ => ⟨s, false⟩

/-- First phase of `fetchSessions`: `set({ sessionsLoading: true })`. -/
def fetchSessionsStart (s : ChatState) : ChatState :=
  { s with sessionsLoading := true }

/-- `fetchSessions`: sets `sessionsLoading`, awaits `chatAPI.getAllSessions()`;
on success `set({ sessions, sessionsLoading: false })`; on failure
`set({ sessionsLoading: false })` (cached list untouched). -/
def fetchSessions (outcome : Except Unit (List SessionSummary))
    (s : ChatState) : ChatState :=
  match outcome with
  | .ok sessions =>
      { fetchSessionsStart s with sessions := sessions, sessionsLoading := false }
  | .error _ => { fetchSessionsStart s with sessionsLoading := false }

/-- Conversion applied to each history message in `switchSession`:
`msg => ({ role: msg.role, content: msg.content, sources: msg.sources || undefined })`. -/
def convertMsg (m : BackendMsg) : Message :=
  { role := m.role, content := m.content, sources := m.sources }

/-- First phase of `switchSession`: `set({ isLoading: true })`. -/
def switchSessionStart (s : ChatState) : ChatState :=
  { s with isLoading := true }

/-- Success completion handler of `switchSession`: applied when the
`getSessionHistory` response arrives, with the session id captured at call
time; writes `set({ sessionId, messages, isLoading: false })`
unconditionally on whatever the state is at resolution time. -/
def switchSessionComplete (sessionId : String) (history : List BackendMsg)
    (s : ChatState) : ChatState :=
  { s with sessionId := some sessionId,
           messages := history.map convertMsg,
           isLoading := false }

/-- Catch branch of `switchSession`: still switches to the session, with an
empty message list: `set({ sessionId, messages: [], isLoading: false })`. -/
def switchSessionFail (sessionId : String) (s : ChatState) : ChatState :=
  { s with sessionId := some sessionId, messages := [], isLoading := false }

/-- `switchSession(sessionId)` run sequentially (no interleaving): sets the
loading flag, issues the history request, and applies the matching
completion handler; on success it also triggers `fetchSessions`. -/
def switchSession (sessionId : String)
    (outcome : Except Unit (List BackendMsg)) (s : ChatState) : SwitchResult :=
  match outcome with
  | .ok history =>
      ⟨switchSessionComplete sessionId history (switchSessionStart s), true, true⟩
  | .error _ =>
      ⟨switchSessionFail sessionId (switchSessionStart s), true, false⟩

/-- `SessionList.handleSwitchSession`: `if (sessionId === currentSessionId)
return;` and otherwise awaits `switchSession(sessionId)`. -/
def handleSwitchSession (sessionId : String)
    (outcome : Except Unit (List BackendMsg)) (s : ChatState) : SwitchResult :=
  if some sessionId = s.sessionId then ⟨s, false, false⟩
  else switchSession sessionId outcome s

/-- `deleteSession(sessionId)`: awaits `chatAPI.deleteSession`; on success
filters the entry out of `sessions` and, if the deleted id is the active one,
`set({ sessionId: null, messages: [] })`; on failure re-throws, state
unchanged. -/
def deleteSession (sessionId : String) (outcome : Except Unit Unit)
    (s : ChatState) : DeleteResult :=
  match outcome with
  | .ok _ =>
      let s1 := { s with
        sessions := s.sessions.filter (fun t => t.session_id ≠ sessionId) }
      if s1.sessionId = some sessionId then
        ⟨{ s1 with sessionId := none, messages := [] }, false⟩
      else
        ⟨s1, false⟩
  | .error _ => ⟨s, true⟩

/-- Optimistic phase of `sendMessage`: append the user message and set the
loading flag before the network call resolves:
`set(state => ({ messages: [...state.messages, { role: 'user', content: message }],
isLoading: true }))`. -/
def sendMessageOptimistic (message : String) (s : ChatState) : ChatState :=
  { s with
    messages := s.messages ++
      [{ role := "user", content := message, sources := none }],
    isLoading := true }

/-- Success completion handler of `sendMessage`: appends the assistant
message built from the response and adopts the response's session id:
`set(state => ({ messages: [...state.messages, { role: 'assistant',
content: response.answer, sources: response.sources }], isLoading: false,
sessionId: response.session_id }))`. -/
def sendMessageOnSuccess (response : ChatResponse) (s : ChatState) : ChatState :=
  { s with
    messages := s.messages ++
      [{ role := "assistant", content := response.answer,
         sources := some response.sources }],
    isLoading := false,
    sessionId := some response.session_id }

/-- Catch branch of `sendMessage`: drop the last message and clear loading:
`set(state => ({ messages: state.messages.slice(0, -1), isLoading: false }))`. -/
def sendMessageOnError (s : ChatState) : ChatState :=
  { s with messages := s.messages.dropLast, isLoading := false }

/-- `sendMessage(message, documentIds)` run sequentially: captures the
current session id, applies the optimistic append, issues the request
`{ question, document_ids, session_id }`, then applies the matching
completion handler; success additionally triggers `fetchSessions`, failure
re-throws.  The store performs no guard of its own on the input or on the
loading flag. -/
def sendMessage (message : String) (documentIds : List String)
    (outcome : Except Unit ChatResponse) (s : ChatState) : SendResult :=
  let req : ChatRequest :=
    { question := message, document_ids := documentIds, session_id := s.sessionId }
  let s1 := sendMessageOptimistic message s
  match outcome with
  | .ok response => ⟨sendMessageOnSuccess response s1, some req, true, false⟩
  | .error _ => ⟨sendMessageOnError s1, some req, false, true⟩

/-- `clearChat`: `set({ messages: [] })`. -/
def clearChat (s : ChatState) : ChatState :=
  { s with messages := [] }

/-- `ChatInput.handleSubmit`: returns early (no append, no loading change,
no request) when the trimmed input is empty, a send is in flight, or the
input is disabled; also returns early (with a toast) when no documents are
selected; otherwise calls `sendMessage(input.trim(), selectedFiles)`. -/
def handleSubmit (input : String) (disabled : Bool)
    (selectedFiles : List String) (outcome : Except Unit ChatResponse)
    (s : ChatState) : SendResult :=
  if input.trim = "" ∨ s.isLoading = true ∨ disabled = true then
    ⟨s, none, false, false⟩
  else if selectedFiles.isEmpty then
    ⟨s, none, false, false⟩
  else
    sendMessage input.trim selectedFiles outcome s

/-- Document record as returned by the backend file list:
`{ id, filename, upload_date, file_size, chunk_count }`. -/
structure FileInfo where
  id : String
  filename : String
  upload_date : String
  file_size : Nat
  chunk_count : Nat
  deriving DecidableEq

/-- State owned by `useFileStore`. -/
structure FileState where
  files : List FileInfo
  selectedFiles : List String
  isLoading : Bool
  isUploading : Bool
  deriving DecidableEq

/-- Initial state of `useFileStore`. -/
def fileInit : FileState :=
  { files := [], selectedFiles := [], isLoading := false, isUploading := false }

/-- `loadFiles`: sets `isLoading`, awaits `fileAPI.getFiles()`; on success
`set({ files, isLoading: false })`; on failure `set({ isLoading: false })`
(cached list untouched). -/
def loadFiles (outcome : Except Unit (List FileInfo)) (s : FileState) : FileState :=
  let s1 := { s with isLoading := true }
  match outcome with
  | .ok files => { s1 with files := files, isLoading := false }
  | .error _ => { s1 with isLoading := false }

/-- `toggleFileSelection(fileId)`: if the id is already selected, filter it
out of `selectedFiles`; otherwise append it. -/
def toggleFileSelection (fileId : String) (s : FileState) : FileState :=
  if fileId ∈ s.selectedFiles then
    { s with selectedFiles := s.selectedFiles.filter (fun y => y ≠ fileId) }
  else
    { s with selectedFiles := s.selectedFiles ++ [fileId] }

/-- Set-level meaning of one toggle: flip membership of `x`
(the symmetric difference with `{x}`). -/
def toggleSet (x : String) (S : Finset String) : Finset String :=
  if x ∈ S then S.erase x else insert x S

/-- Invariant claimed for the chat store: when no session is active the
message sequence is empty. -/
def ChatInv (s : ChatState) : Prop :=
  s.sessionId = none → s.messages = []

instance (s : ChatState) : Decidable (ChatInv s) := by
  unfold ChatInv; infer_instance

/-- C1: for every prior message history and every successful backend response
`{answer, sources, session_id}`, `sendMessage(text, documentIds)` ends with
the message sequence extended by exactly the user message and the assistant
message built from the response, the loading flag false, the response's
session id adopted as the active session id, no error re-thrown, and a
sessions-list refresh triggered. -/
theorem sendMessage_success_spec (text : String) (documentIds : List String)
    (response : ChatResponse) (s : ChatState) :
    (sendMessage text documentIds (Except.ok response) s).state.messages
        = s.messages ++
          [{ role := "user", content := text, sources := none },
           { role := "assistant", content := response.answer,
             sources := some response.sources }]
      ∧ (sendMessage text documentIds (Except.ok response) s).state.isLoading = false
      ∧ (sendMessage text documentIds (Except.ok response) s).state.sessionId
          = some response.session_id
      ∧ (sendMessage text documentIds (Except.ok response) s).threw = false
      ∧ (sendMessage text documentIds (Except.ok response) s).fetchTriggered = true := by
  refine ⟨?_, rfl, rfl, rfl, rfl⟩
  simp [sendMessage, sendMessageOptimistic, sendMessageOnSuccess]

/-- C2: for every prior message history, a failed backend call inside
`sendMessage` rolls back exactly the speculatively appended user message, so
the message sequence equals its pre-call value, the loading flag is false,
the active session id is unchanged, and the error is re-thrown to the
caller. -/
theorem sendMessage_failure_rollback (text : String) (documentIds : List String)
    (s : ChatState) :
    (sendMessage text documentIds (Except.error ()) s).state.messages = s.messages
      ∧ (sendMessage text documentIds (Except.error ()) s).state.isLoading = false
      ∧ (sendMessage text documentIds (Except.error ()) s).state.sessionId = s.sessionId
      ∧ (sendMessage text documentIds (Except.error ()) s).threw = true := by
  refine ⟨?_, rfl, rfl, rfl⟩
  simp [sendMessage, sendMessageOptimistic, sendMessageOnError]

/-- C6 amended: `initializeSession` requests a new session unconditionally,
even when one is already active; on success it adopts the new session id,
leaves every other field (messages included) unchanged, and triggers a
sessions-list refresh; on failure it leaves all state unchanged. -/
theorem initializeSession_behaviour (response : CreateSessionResponse)
    (s : ChatState) :
    initializeSession (Except.ok response) s
        = ⟨{ s with sessionId := some response.session_id }, true⟩
      ∧ initializeSession (Except.error ()) s = ⟨s, false⟩ :=
  ⟨rfl, rfl⟩

/-- C6 counterexample: `initializeSession` is not a no-op when a session is
already active: from an active session `old`, a successful call adopts the
newly issued id `new`, changing the state. -/
theorem initializeSession_not_noop_cex :
    (initializeSession (Except.ok ⟨"new"⟩)
        { chatInit with sessionId := some "old" }).state.sessionId = some "new"
      ∧ (initializeSession (Except.ok ⟨"new"⟩)
          { chatInit with sessionId := some "old" }).state
          ≠ { chatInit with sessionId := some "old" } := by
  exact ⟨rfl, by decide⟩

/-- C7: `deleteSession(id)` on success removes `id` from the cached sessions
list and clears the active session id and message sequence exactly when `id`
was active; on failure it re-throws and leaves all state unchanged. -/
theorem deleteSession_spec (sessionId : String) (s : ChatState) :
    deleteSession sessionId (Except.ok ()) s
        = (if s.sessionId = some sessionId then
            ⟨{ s with
                sessions := s.sessions.filter (fun t => t.session_id ≠ sessionId),
                sessionId := none, messages := [] }, false⟩
          else
            ⟨{ s with
                sessions := s.sessions.filter (fun t => t.session_id ≠ sessionId) },
              false⟩)
      ∧ deleteSession sessionId (Except.error ()) s = ⟨s, true⟩ := by
  constructor
  · by_cases h : s.sessionId = some sessionId <;> simp [deleteSession, h]
  · rfl

/-- C8: a failed `fetchSessions` leaves the cached sessions list unchanged
and clears `sessionsLoading`, and a failed `loadFiles` leaves the cached
files list unchanged and clears its loading flag. -/
theorem fetch_failure_keeps_cache (s : ChatState) (t : FileState) :
    (fetchSessions (Except.error ()) s).sessions = s.sessions
      ∧ (fetchSessions (Except.error ()) s).sessionsLoading = false
      ∧ (loadFiles (Except.error ()) t).files = t.files
      ∧ (loadFiles (Except.error ()) t).isLoading = false :=
  ⟨rfl, rfl, rfl, rfl⟩

/-- C3 counterexample: the store's `sendMessage` has no guard of its own:
called with empty text while the loading flag is already set, it still
appends the optimistic user message (two messages after the success
handler) and still issues a backend request. -/
theorem sendMessage_no_guard_cex :
    (sendMessage "" ["d1"] (Except.ok ⟨"ans", [], "s1"⟩)
        { chatInit with isLoading := true }).request ≠ none
      ∧ (sendMessage "" ["d1"] (Except.ok ⟨"ans", [], "s1"⟩)
          { chatInit with isLoading := true }).state.messages ≠ [] := by
  decide

/-- C3 amended: the empty-text / already-loading guard lives in the UI
caller `ChatInput.handleSubmit`, not in the store's `sendMessage`:
whenever the trimmed input is empty or the loading flag is set,
`handleSubmit` returns without appending any message, without touching the
loading flag, and without issuing a backend request. -/
theorem handleSubmit_guard (input : String) (disabled : Bool)
    (selectedFiles : List String) (outcome : Except Unit ChatResponse)
    (s : ChatState) (h : input.trim = "" ∨ s.isLoading = true) :
    handleSubmit input disabled selectedFiles outcome s = ⟨s, none, false, false⟩ := by
  have hc : input.trim = "" ∨ s.isLoading = true ∨ disabled = true := by
    rcases h with h | h
    · exact Or.inl h
    · exact Or.inr (Or.inl h)
  unfold handleSubmit
  rw [if_pos hc]

/-- Witness for `handleSubmit_guard` at a concrete input. -/
theorem handleSubmit_guard_witness :
    handleSubmit "x" false ["d1"] (Except.error ())
        { chatInit with isLoading := true }
      = ⟨{ chatInit with isLoading := true }, none, false, false⟩ :=
  handleSubmit_guard "x" false ["d1"] (Except.error ())
    { chatInit with isLoading := true } (Or.inr rfl)

/-- C4: the completion handlers carry no identity guard and apply stale
responses.  Failing interleaving: `switchSession("A")` starts from the
initial state; `switchSession("B")` then runs to completion, making `B`
active with its fetched history; when `A`'s history response finally
resolves, the completion handler overwrites the state with `A`'s id and
`A`'s history instead of discarding the stale response. -/
theorem stale_switch_applied :
    (switchSession "B"
        (Except.ok [{ role := "assistant", content := "hb", sources := some ["doc1"] }])
        (switchSessionStart chatInit)).state.sessionId = some "B"
      ∧ (switchSessionComplete "A"
          [{ role := "user", content := "ha", sources := none }]
          (switchSession "B"
            (Except.ok [{ role := "assistant", content := "hb", sources := some ["doc1"] }])
            (switchSessionStart chatInit)).state).sessionId = some "A"
      ∧ (switchSessionComplete "A"
          [{ role := "user", content := "ha", sources := none }]
          (switchSession "B"
            (Except.ok [{ role := "assistant", content := "hb", sources := some ["doc1"] }])
            (switchSessionStart chatInit)).state).messages
          = [{ role := "user", content := "ha", sources := none }]
      ∧ (switchSessionComplete "A"
          [{ role := "user", content := "ha", sources := none }]
          (switchSession "B"
            (Except.ok [{ role := "assistant", content := "hb", sources := some ["doc1"] }])
            (switchSessionStart chatInit)).state)
          ≠ (switchSession "B"
              (Except.ok [{ role := "assistant", content := "hb", sources := some ["doc1"] }])
              (switchSessionStart chatInit)).state := by
  decide

/-- C9 counterexample: the intermediate optimistic state of `sendMessage`
violates the invariant "session id none implies empty messages": starting
from the initial state (no active session), the optimistic phase appends
the user message while the session id is still none. -/
theorem invariant_intermediate_cex :
    (sendMessageOptimistic "hi" chatInit).sessionId = none
      ∧ (sendMessageOptimistic "hi" chatInit).messages ≠ [] := by
  decide

/-- C9 amended: the invariant "session id none implies empty messages"
holds in the initial state and is preserved by the final state of every
operation (`initializeSession`, `fetchSessions`, `switchSession`,
`deleteSession`, `sendMessage` on success and on failure, `clearChat`),
though not by `sendMessage`'s intermediate optimistic state. -/
theorem chat_invariant_preserved :
    ChatInv chatInit
      ∧ (∀ o s, ChatInv s → ChatInv (initializeSession o s).state)
      ∧ (∀ o s, ChatInv s → ChatInv (fetchSessions o s))
      ∧ (∀ i o s, ChatInv s → ChatInv (switchSession i o s).state)
      ∧ (∀ i o s, ChatInv s → ChatInv (deleteSession i o s).state)
      ∧ (∀ m d o s, ChatInv s → ChatInv (sendMessage m d o s).state)
      ∧ (∀ s, ChatInv s → ChatInv (clearChat s)) := by
  refine ⟨fun _ => rfl, ?_, ?_, ?_, ?_, ?_, ?_⟩
  · rintro (o | o) s hs
    · intro h; exact hs h
    · intro h; simp [initializeSession] at h
  · rintro (o | o) s hs
    · intro h; exact hs h
    · intro h; exact hs h
  · rintro i (o | o) s hs
    · intro h; simp [switchSession, switchSessionFail, switchSessionStart] at h
    · intro h; simp [switchSession, switchSessionComplete, switchSessionStart] at h
  · rintro i (o | o) s hs
    · intro h; exact hs h
    · intro h
      by_cases hid : s.sessionId = some i
      · simp [deleteSession, hid]
      · simp [deleteSession, hid] at h ⊢
        exact hs h
  · rintro m d (o | o) s hs
    · intro h
      have hmsgs : s.messages = [] := by
        apply hs
        simpa [sendMessage, sendMessageOnError, sendMessageOptimistic] using h
      simp [sendMessage, sendMessageOnError, sendMessageOptimistic, hmsgs]
    · intro h; simp [sendMessage, sendMessageOnSuccess, sendMessageOptimistic] at h
  · intro s _ _; rfl

/-- Witness for `chat_invariant_preserved` at a concrete input: the failure
branch of `sendMessage` from the initial state keeps the invariant. -/
theorem chat_invariant_preserved_witness :
    ChatInv (sendMessage "hi" ["d1"] (Except.error ()) chatInit).state :=
  chat_invariant_preserved.2.2.2.2.2.1 "hi" ["d1"] (Except.error ()) chatInit
    (fun _ => rfl)

/-- C5 counterexample: the store's `switchSession`, called with the id that
is already active, still issues the history request and still changes state
(here the fetched empty history replaces the local messages). -/
theorem switchSession_same_id_cex :
    (switchSession "s1" (Except.ok [])
        { chatInit with
          sessionId := some "s1",
          messages := [{ role := "user", content := "m1", sources := none }] }).requested
        = true
      ∧ (switchSession "s1" (Except.ok [])
          { chatInit with
            sessionId := some "s1",
            messages := [{ role := "user", content := "m1", sources := none }] }).state
          ≠ { chatInit with
              sessionId := some "s1",
              messages := [{ role := "user", content := "m1", sources := none }] } := by
  decide

/-- C5 amended: the same-id no-op guard lives in the UI caller
`SessionList.handleSwitchSession`, not in the store's `switchSession`: when
the requested id equals the active session id, `handleSwitchSession` returns
without issuing a network call and without any state change. -/
theorem handleSwitchSession_noop (sessionId : String)
    (outcome : Except Unit (List BackendMsg)) (s : ChatState)
    (h : s.sessionId = some sessionId) :
    handleSwitchSession sessionId outcome s = ⟨s, false, false⟩ := by
  unfold handleSwitchSession
  rw [if_pos h.symm]

/-- Witness for `handleSwitchSession_noop` at a concrete input. -/
theorem handleSwitchSession_noop_witness :
    handleSwitchSession "s1" (Except.error ())
        { chatInit with sessionId := some "s1" }
      = ⟨{ chatInit with sessionId := some "s1" }, false, false⟩ :=
  handleSwitchSession_noop "s1" (Except.error ())
    { chatInit with sessionId := some "s1" } rfl

/-- One `toggleFileSelection` call flips membership of the toggled id at the
set level. -/
theorem toggleFileSelection_toFinset (x : String) (s : FileState) :
    (toggleFileSelection x s).selectedFiles.toFinset
      = toggleSet x s.selectedFiles.toFinset := by
  by_cases h : x ∈ s.selectedFiles
  · have hx : x ∈ s.selectedFiles.toFinset := List.mem_toFinset.mpr h
    rw [toggleFileSelection, if_pos h, toggleSet, if_pos hx]
    ext y
    simp [List.mem_filter, Finset.mem_erase, and_comm]
  · have hx : x ∉ s.selectedFiles.toFinset := fun hc => h (List.mem_toFinset.mp hc)
    rw [toggleFileSelection, if_neg h, toggleSet, if_neg hx]
    ext y
    simp [or_comm]

/-- Folding list-level toggles agrees with folding set-level toggles. -/
theorem toggleFileSelection_foldl (toggles : List String) (s : FileState) :
    (toggles.foldl (fun t x => toggleFileSelection x t) s).selectedFiles.toFinset
      = toggles.foldl (fun S x => toggleSet x S) s.selectedFiles.toFinset := by
  induction toggles generalizing s with
  | nil => rfl
  | cons x xs ih =>
      rw [List.foldl_cons, List.foldl_cons, ih, toggleFileSelection_toFinset]

/-- Flipping membership twice is the identity on sets. -/
theorem toggleSet_involutive (x : String) (S : Finset String) :
    toggleSet x (toggleSet x S) = S := by
  unfold toggleSet
  by_cases h : x ∈ S
  · rw [if_pos h, if_neg (Finset.not_mem_erase x S), Finset.insert_erase h]
  · rw [if_neg h, if_pos (Finset.mem_insert_self x S), Finset.erase_insert h]

/-- One set-level toggle is the symmetric difference with the singleton. -/
theorem toggleSet_eq_symmDiff (x : String) (S : Finset String) :
    toggleSet x S = symmDiff S {x} := by
  ext y
  rw [Finset.mem_symmDiff, Finset.mem_singleton]
  unfold toggleSet
  by_cases h : x ∈ S
  · rw [if_pos h, Finset.mem_erase]
    constructor
    · rintro ⟨hyx, hyS⟩
      exact Or.inl ⟨hyS, hyx⟩
    · rintro (⟨hyS, hyx⟩ | ⟨rfl, hxS⟩)
      · exact ⟨hyx, hyS⟩
      · exact absurd h hxS
  · rw [if_neg h, Finset.mem_insert]
    constructor
    · rintro (rfl | hyS)
      · exact Or.inr ⟨rfl, h⟩
      · refine Or.inl ⟨hyS, ?_⟩
        rintro rfl
        exact h hyS
    · rintro (⟨hyS, _⟩ | ⟨rfl, _⟩)
      · exact Or.inr hyS
      · exact Or.inl rfl

/-- C10: for every starting selection and every sequence of
`toggleFileSelection` calls, the resulting selection read as a set equals
the fold of symmetric differences with the toggled singletons; in
particular toggling the same id twice returns the selection to the original
set. -/
theorem toggleFileSelection_sets (s : FileState) (toggles : List String) :
    (toggles.foldl (fun t x => toggleFileSelection x t) s).selectedFiles.toFinset
        = toggles.foldl (fun S x => symmDiff S {x}) s.selectedFiles.toFinset
      ∧ ∀ x, (toggleFileSelection x (toggleFileSelection x s)).selectedFiles.toFinset
          = s.selectedFiles.toFinset := by
  constructor
  · have hfun : (fun (S : Finset String) (x : String) => toggleSet x S)
        = fun S x => symmDiff S {x} :=
      funext fun S => funext fun x => toggleSet_eq_symmDiff x S
    rw [toggleFileSelection_foldl, hfun]
  · intro x
    rw [toggleFileSelection_toFinset, toggleFileSelection_toFinset,
      toggleSet_involutive]
